import Mathlib

/-!
Verification of the speech-analytics repository (Next.js transcription app).

The embedding below models, from the source:
  - the API route handler `POST` (src/unnamed/part_001), including
    `saveAnalysisToHistory`, the temporary-file lifecycle and the catch block;
  - the declared result interfaces `TranscriptionAnalysis`, `ComparisonResult`,
    `TranscriptionResult` of the route, and the spread `{...result, sentiment}`;
  - the score-display expressions of src/src/components/TranscriptionResult.tsx.

The scoring engine itself lives in `python_backend/transcribe.py`, which is not
part of the available sources; where a claim is about it, the engine is
modelled from the spec (each such definition says so in its doc comment).

Numbers are rationals (ℚ); JavaScript promise rejections are values of
`Except String`; the nondeterministic externals of one request (the Python
process outcome, the GPT sentiment call, filesystem failures) are packaged as
an explicit `Externals` record so that properties across runs are statements
about two evaluations with different external records.
-/

namespace WhisperAI

/-- A pause entry `{duration, position}` as in the route's
`TranscriptionAnalysis.pauses` and the UI's `SpeakerStats.pauses`. -/
structure Pause where
  duration : ℚ
  position : ℚ
deriving DecidableEq, Repr

/-- Interface `TranscriptionAnalysis` of the route (part_001 lines 13-20). -/
structure TranscriptionAnalysis where
  words_per_minute : ℚ
  total_duration : ℚ
  word_count : ℕ
  pauses : List Pause
  average_confidence : ℚ
  segments_count : ℕ
deriving DecidableEq, Repr

/-- The `detailed_scores` member of the route's `ComparisonResult`
(part_001 lines 24-28): pace, duration and confidence scores. -/
structure DetailedScores where
  pace_score : ℚ
  duration_score : ℚ
  confidence_score : ℚ
deriving DecidableEq, Repr

/-- Interface `ComparisonResult` of the route (part_001 lines 22-30). -/
structure ComparisonResult where
  overall_score : ℚ
  detailed_scores : DetailedScores
  improvement_suggestions : List String
deriving DecidableEq, Repr

/-- Interface `TranscriptionResult` of the route (part_001 lines 32-39):
the declared shape of the JSON parsed from the Python process output. -/
structure TranscriptionResult where
  success : Bool
  transcription : Option String
  error : Option String
  analysis : Option TranscriptionAnalysis
  comparison : Option ComparisonResult
  timestamp : Option String
deriving DecidableEq, Repr

/-- The value assembled at part_001 lines 172-175: `{...result, sentiment}`,
i.e. the parsed transcription result spread together with the sentiment text. -/
structure FinalResult extends TranscriptionResult where
  sentiment : String
deriving DecidableEq, Repr

/-- Body of a `NextResponse.json(...)` produced by the handler: either the
assembled final result or an `{error: ...}` object. -/
inductive ResponseBody where
  | result (r : FinalResult)
  | error (msg : String)
deriving DecidableEq, Repr

/-- An HTTP response of the handler: status code plus JSON body. -/
structure Response where
  status : ℕ
  body : ResponseBody
deriving DecidableEq, Repr

/-- The incoming request, abstracted to what the handler inspects:
whether `formData.get('audio')` yields a file. -/
structure Request where
  hasAudio : Bool
deriving DecidableEq, Repr

deriving instance DecidableEq for Except

/-- Outcomes of the external effects of one request: the Python transcription
process (`runPythonScript` resolves with a parsed result or rejects with a
message), the GPT sentiment call (`analyzeSentiment` resolves with text or
rejects), whether the history write inside `saveAnalysisToHistory` throws, and
whether `unlink` of the temporary file throws. -/
structure Externals where
  python : Except String TranscriptionResult
  sentiment : Except String String
  appendFails : Bool
  unlinkFails : Bool
deriving DecidableEq, Repr

/-- Observable side effects of one request: whether the temporary audio file
was written, whether it still exists when the handler returns, whether the
Python process was spawned, the history directory (filename timestamp paired
with the stored result), and whether `saveAnalysisToHistory` logged its
failure warning. -/
structure SideEffects where
  tempWritten : Bool
  tempExists : Bool
  pythonSpawned : Bool
  history : List (ℕ × FinalResult)
  historyWarning : Bool
deriving DecidableEq, Repr

/-- `fs.promises.writeFile(join(historyDir, filename), ...)`: creates the
file, overwriting an existing entry of the same name. -/
def writeHistoryFile (store : List (ℕ × FinalResult)) (now : ℕ) (r : FinalResult) :
    List (ℕ × FinalResult) :=
  if store.any (fun e => e.1 = now) then
    store.map (fun e => if e.1 = now then (now, r) else e)
  else
    store ++ [(now, r)]

/-- `saveAnalysisToHistory` (part_001 lines 111-125): writes
`analysis_${Date.now()}.json` holding the result; its own try/catch swallows
any failure, logging a warning (the returned Bool) instead of rethrowing. -/
def saveAnalysisToHistory (store : List (ℕ × FinalResult)) (now : ℕ) (r : FinalResult)
    (fails : Bool) : List (ℕ × FinalResult) × Bool :=
  if fails then (store, true) else (writeHistoryFile store now r, false)

/-- A JavaScript `Error` value as the catch block receives it: its class name
(`error.name`, e.g. "InvalidSegmentError") and its message. -/
structure JsError where
  name : String
  message : String
deriving DecidableEq, Repr

/-- The catch block of `POST` (part_001 lines 198-201): the response keeps only
the message of the caught error — `{error: error.message}` with status 500;
the error's name/kind does not reach the response. -/
def catchResponse (e : JsError) : Response :=
  ⟨500, .error e.message⟩

/-- The `POST` handler (part_001 lines 127-203), step for step:
missing audio field → 400 early return with no side effect; otherwise the
temporary file is written, the Python process is spawned, a rejection or an
unsuccessful result or a sentiment rejection throws into the catch block
(which attempts `unlink`, swallowing its failure, and answers 500 with the
error message); on success the final result is `{...result, sentiment}`,
`saveAnalysisToHistory` runs (never throwing), then `unlink` runs inside the
try (so its failure falls into the catch and turns the response into a 500),
and finally the 200 response carries the final result. -/
def post (req : Request) (ext : Externals) (now : ℕ) (store : List (ℕ × FinalResult)) :
    Response × SideEffects :=
  if req.hasAudio = false then
    (⟨400, .error "No audio file provided"⟩,
     ⟨false, false, false, store, false⟩)
  else
    match ext.python with
    | .error msg =>
        (⟨500, .error msg⟩, ⟨true, ext.unlinkFails, true, store, false⟩)
    | .ok r =>
      if r.success = false then
        (⟨500, .error (r.error.getD "Transcription failed")⟩,
         ⟨true, ext.unlinkFails, true, store, false⟩)
      else
        match ext.sentiment with
        | .error msg =>
            (⟨500, .error msg⟩, ⟨true, ext.unlinkFails, true, store, false⟩)
        | .ok s =>
          let final : FinalResult := ⟨r, s⟩
          let saved := saveAnalysisToHistory store now final ext.appendFails
          if ext.unlinkFails then
            (⟨500, .error "unlink failed"⟩, ⟨true, true, true, saved.1, saved.2⟩)
          else
            (⟨200, .result final⟩, ⟨true, false, true, saved.1, saved.2⟩)

/-- Replace the timestamp of the Python result inside an `Externals` record;
used to state that the output does not depend on it. -/
def withTimestamp (ext : Externals) (t : Option String) : Externals :=
  { ext with
    python := match ext.python with
      | .ok r => .ok { r with timestamp := t }
      | .error m => .error m }

/-- Erase the `timestamp` field of a final result (the field the spec excludes
from equality checks). -/
def stripTimestamp (r : FinalResult) : FinalResult :=
  { r with timestamp := none }

/-- Erase the `timestamp` field inside a response body. -/
def stripResponse : Response → Response
  | ⟨s, .result r⟩ => ⟨s, .result (stripTimestamp r)⟩
  | o => o

/-! Scoring engine.  The engine itself is implemented in
`python_backend/transcribe.py`, which is not among the available sources;
the definitions below are modelled from the spec (§4.3, §6). -/

/-- Modelled from the spec: the recognized `ScoringConfig` options of §6 that
the scoring engine consumes — ideal pace (default 150 wpm), pace bounds
(default 80 and 220 wpm) and the three weights (default 0.4/0.3/0.3). -/
structure ScoringConfig where
  ideal_pace_wpm : ℚ
  pace_low : ℚ
  pace_high : ℚ
  weight_pace : ℚ
  weight_confidence : ℚ
  weight_pause : ℚ
deriving DecidableEq, Repr

/-- Modelled from the spec: the default configuration of §4.3/§6. -/
def defaultConfig : ScoringConfig :=
  ⟨150, 80, 220, 2/5, 3/10, 3/10⟩

/-- Modelled from the spec: `SpeakerStats` of §3 — per-speaker word count,
total duration, words per minute, unweighted mean confidence and the list of
notable pauses. -/
structure SpeakerStats where
  word_count : ℕ
  total_duration : ℚ
  words_per_minute : ℚ
  average_confidence : ℚ
  pauses : List Pause
deriving DecidableEq, Repr

/-- Modelled from the spec: a per-speaker `Score` of §3 — three sub-scores and
the weighted overall score. -/
structure Score where
  pace_score : ℚ
  confidence_score : ℚ
  pause_score : ℚ
  overall_score : ℚ
deriving DecidableEq, Repr

/-- Modelled from the spec: half of the pace range, the denominator of the
linear pace penalty (70 for the default bounds 80/220). -/
def halfRange (cfg : ScoringConfig) : ℚ :=
  (cfg.pace_high - cfg.pace_low) / 2

/-- Modelled from the spec: `pace_score = max(0, 1 - |wpm - ideal| / half_range)`
(§4.3). -/
def paceScore (cfg : ScoringConfig) (wpm : ℚ) : ℚ :=
  max 0 (1 - |wpm - cfg.ideal_pace_wpm| / halfRange cfg)

/-- Modelled from the spec: `confidence_score = average_confidence` directly
(§4.3). -/
def confidenceScore (stats : SpeakerStats) : ℚ :=
  stats.average_confidence

/-- Sum of the durations of a speaker's notable pauses. -/
def pauseSum (stats : SpeakerStats) : ℚ :=
  (stats.pauses.map Pause.duration).sum

/-- Modelled from the spec: `pause_score` starts at 1.0, subtracts
`min(0.5, 0.05 * count_of_pauses)` and `min(0.5, sum_of_pause_durations /
total_duration)`, floored at 0 (§4.3).  Rational division by zero is 0, which
realizes the guarded degenerate zero-duration case. -/
def pauseScore (stats : SpeakerStats) : ℚ :=
  max 0 (1 - min (1/2) ((stats.pauses.length : ℚ) / 20)
           - min (1/2) (pauseSum stats / stats.total_duration))

/-- Modelled from the spec: the weighted overall score
`0.4*pace + 0.3*confidence + 0.3*pause` with configurable weights (§4.3). -/
def overallScore (cfg : ScoringConfig) (p c pa : ℚ) : ℚ :=
  cfg.weight_pace * p + cfg.weight_confidence * c + cfg.weight_pause * pa

/-- Modelled from the spec: the pure scoring function
`score(stats, config) -> Score` of §4.3. -/
def score (cfg : ScoringConfig) (stats : SpeakerStats) : Score :=
  ⟨paceScore cfg stats.words_per_minute, confidenceScore stats, pauseScore stats,
   overallScore cfg (paceScore cfg stats.words_per_minute) (confidenceScore stats)
     (pauseScore stats)⟩

/-- Modelled from the spec: a configuration the engine accepts without
`InvalidConfigError` — bounds not inverted, nonnegative weights summing
to 1 (§4.3, §7). -/
def ValidConfig (cfg : ScoringConfig) : Prop :=
  cfg.pace_low < cfg.pace_high ∧
  0 ≤ cfg.weight_pace ∧ 0 ≤ cfg.weight_confidence ∧ 0 ≤ cfg.weight_pause ∧
  cfg.weight_pace + cfg.weight_confidence + cfg.weight_pause = 1

/-- Modelled from the spec: well-formedness of aggregated speaker statistics
as the aggregator produces them from validated segments — nonnegative
duration, mean confidence in [0,1], nonnegative pause durations (§3, §4.2). -/
def ValidStats (stats : SpeakerStats) : Prop :=
  0 ≤ stats.total_duration ∧
  0 ≤ stats.average_confidence ∧ stats.average_confidence ≤ 1 ∧
  ∀ p ∈ stats.pauses, 0 ≤ p.duration

/-! Score display.  From src/src/components/TranscriptionResult.tsx. -/

/-- The "Performance Scores" cells (TranscriptionResult.tsx lines 148-159):
a score is displayed as `Math.round(score * 100)` followed by `%`. -/
def displayScorePercent (s : ℚ) : ℤ :=
  round (s * 100)

/-- The per-speaker "Performance" cells (TranscriptionResult.tsx lines
278-293): the value printed before the literal `/10` is the raw score itself —
`{scores.pace_score}/10` — with no rescaling. -/
def displayScoreOutOfTen (s : ℚ) : ℚ :=
  s

/-! Declared field names of the route's result interfaces (the JSON shape the
route documents for its output), and, for comparison, the field names the spec
claims for the output object. -/

/-- Field names of the route's `TranscriptionAnalysis` interface. -/
def transcriptionAnalysisFields : List String :=
  ["words_per_minute", "total_duration", "word_count", "pauses",
   "average_confidence", "segments_count"]

/-- Field names of the route's `ComparisonResult` interface. -/
def comparisonResultFields : List String :=
  ["overall_score", "detailed_scores", "improvement_suggestions"]

/-- Field names of the `detailed_scores` member of the route's
`ComparisonResult` interface. -/
def detailedScoresFields : List String :=
  ["pace_score", "duration_score", "confidence_score"]

/-- Field names of the route's `TranscriptionResult` interface. -/
def transcriptionResultFields : List String :=
  ["success", "transcription", "error", "analysis", "comparison", "timestamp"]

/-- Field names of the final result `{...result, sentiment}` the route
returns on success. -/
def finalResultFields : List String :=
  transcriptionResultFields ++ ["sentiment"]

/-- Follows the spec's words (§6 Output), for refinement comparison: the
top-level fields the spec claims for the result object. -/
def specResultTopFields : List String :=
  ["transcription", "sentiment", "speaker_analysis", "comparison"]

/-- Follows the spec's words (§6 Output), for refinement comparison: the
fields the spec claims for the `comparison` member. -/
def specComparisonFields : List String :=
  ["overall_score", "speaker_scores", "improvement_suggestions",
   "historical_comparison"]

/-- Follows the spec's words (§6 Output), for refinement comparison: the
fields the spec claims for the `speaker_analysis` member. -/
def specSpeakerAnalysisFields : List String :=
  ["speaker_segments", "speaker_stats", "total_speakers"]

/-! Theorems. -/

theorem paceScore_nonneg (cfg : ScoringConfig) (wpm : ℚ) : 0 ≤ paceScore cfg wpm :=
  le_max_left 0 _

theorem paceScore_le_one (cfg : ScoringConfig) (wpm : ℚ)
    (h : cfg.pace_low < cfg.pace_high) : paceScore cfg wpm ≤ 1 := by
  have hhr : 0 ≤ halfRange cfg := by
    unfold halfRange
    linarith
  have hq : 0 ≤ |wpm - cfg.ideal_pace_wpm| / halfRange cfg :=
    div_nonneg (abs_nonneg _) hhr
  unfold paceScore
  exact max_le (by norm_num) (by linarith)

theorem pauseScore_nonneg (stats : SpeakerStats) : 0 ≤ pauseScore stats :=
  le_max_left 0 _

theorem pauseScore_le_one (stats : SpeakerStats)
    (hd : 0 ≤ stats.total_duration)
    (hp : ∀ p ∈ stats.pauses, 0 ≤ p.duration) : pauseScore stats ≤ 1 := by
  have hS : 0 ≤ pauseSum stats := by
    unfold pauseSum
    apply List.sum_nonneg
    intro x hx
    simp only [List.mem_map] at hx
    obtain ⟨p, hmem, rfl⟩ := hx
    exact hp p hmem
  have ha : 0 ≤ min (1/2 : ℚ) ((stats.pauses.length : ℚ) / 20) :=
    le_min (by norm_num) (by positivity)
  have hb : 0 ≤ min (1/2 : ℚ) (pauseSum stats / stats.total_duration) :=
    le_min (by norm_num) (div_nonneg hS hd)
  unfold pauseScore
  exact max_le (by norm_num) (by linarith)

/-- C7: for every valid configuration and well-formed speaker statistics, each
of pace_score, confidence_score, pause_score and the weighted overall_score of
the scoring engine lies in the closed interval [0,1]. -/
theorem score_bounds (cfg : ScoringConfig) (stats : SpeakerStats)
    (hc : ValidConfig cfg) (hs : ValidStats stats) :
    (0 ≤ (score cfg stats).pace_score ∧ (score cfg stats).pace_score ≤ 1) ∧
    (0 ≤ (score cfg stats).confidence_score ∧ (score cfg stats).confidence_score ≤ 1) ∧
    (0 ≤ (score cfg stats).pause_score ∧ (score cfg stats).pause_score ≤ 1) ∧
    (0 ≤ (score cfg stats).overall_score ∧ (score cfg stats).overall_score ≤ 1) := by
  obtain ⟨hlh, hwp, hwc, hwpa, hsum⟩ := hc
  obtain ⟨hd, hc0, hc1, hplist⟩ := hs
  have h1 := paceScore_nonneg cfg stats.words_per_minute
  have h2 := paceScore_le_one cfg stats.words_per_minute hlh
  have h3 : 0 ≤ confidenceScore stats := hc0
  have h4 : confidenceScore stats ≤ 1 := hc1
  have h5 := pauseScore_nonneg stats
  have h6 := pauseScore_le_one stats hd hplist
  refine ⟨⟨h1, h2⟩, ⟨h3, h4⟩, ⟨h5, h6⟩, ?_, ?_⟩
  · show 0 ≤ overallScore cfg (paceScore cfg stats.words_per_minute)
      (confidenceScore stats) (pauseScore stats)
    unfold overallScore
    have hm1 := mul_nonneg hwp h1
    have hm2 := mul_nonneg hwc h3
    have hm3 := mul_nonneg hwpa h5
    linarith
  · show overallScore cfg (paceScore cfg stats.words_per_minute)
      (confidenceScore stats) (pauseScore stats) ≤ 1
    unfold overallScore
    have hm1 : cfg.weight_pace * paceScore cfg stats.words_per_minute ≤
        cfg.weight_pace * 1 := mul_le_mul_of_nonneg_left h2 hwp
    have hm2 : cfg.weight_confidence * confidenceScore stats ≤
        cfg.weight_confidence * 1 := mul_le_mul_of_nonneg_left h4 hwc
    have hm3 : cfg.weight_pause * pauseScore stats ≤
        cfg.weight_pause * 1 := mul_le_mul_of_nonneg_left h6 hwpa
    nlinarith

/-- Witness for C7: the bounds hold at the default configuration and the
spec's example speaker B statistics (4 words in 2 seconds, 120 wpm,
confidence 0.95, no pauses). -/
theorem score_bounds_witness :
    (0 ≤ (score defaultConfig ⟨4, 2, 120, 19/20, []⟩).pace_score ∧
      (score defaultConfig ⟨4, 2, 120, 19/20, []⟩).pace_score ≤ 1) ∧
    (0 ≤ (score defaultConfig ⟨4, 2, 120, 19/20, []⟩).confidence_score ∧
      (score defaultConfig ⟨4, 2, 120, 19/20, []⟩).confidence_score ≤ 1) ∧
    (0 ≤ (score defaultConfig ⟨4, 2, 120, 19/20, []⟩).pause_score ∧
      (score defaultConfig ⟨4, 2, 120, 19/20, []⟩).pause_score ≤ 1) ∧
    (0 ≤ (score defaultConfig ⟨4, 2, 120, 19/20, []⟩).overall_score ∧
      (score defaultConfig ⟨4, 2, 120, 19/20, []⟩).overall_score ≤ 1) := by
  have hc : ValidConfig defaultConfig := by
    refine ⟨?_, ?_, ?_, ?_, ?_⟩ <;> norm_num [defaultConfig]
  have hs : ValidStats ⟨4, 2, 120, 19/20, []⟩ := by
    refine ⟨by norm_num, by norm_num, by norm_num, ?_⟩
    intro p hp
    simp at hp
  exact score_bounds defaultConfig ⟨4, 2, 120, 19/20, []⟩ hc hs

/-- C8: the pace score is symmetric around the ideal pace — for a deviation d
keeping both wpm values within the configured bounds, the score at ideal - d
equals the score at ideal + d, by the formula
`pace_score = max(0, 1 - |wpm - ideal| / half_range)`. -/
theorem paceScore_symmetric (cfg : ScoringConfig) (d : ℚ)
    (h : cfg.pace_low ≤ cfg.ideal_pace_wpm - d ∧
         cfg.ideal_pace_wpm + d ≤ cfg.pace_high) :
    paceScore cfg (cfg.ideal_pace_wpm - d) = paceScore cfg (cfg.ideal_pace_wpm + d) := by
  unfold paceScore
  have h1 : cfg.ideal_pace_wpm - d - cfg.ideal_pace_wpm = -d := by ring
  have h2 : cfg.ideal_pace_wpm + d - cfg.ideal_pace_wpm = d := by ring
  rw [h1, h2, abs_neg]

/-- Witness for C8: at the default configuration with deviation 30 wpm (both
120 and 180 wpm lie within the bounds 80..220), the two pace scores agree. -/
theorem paceScore_symmetric_witness :
    (defaultConfig.pace_low ≤ defaultConfig.ideal_pace_wpm - 30 ∧
     defaultConfig.ideal_pace_wpm + 30 ≤ defaultConfig.pace_high) ∧
    paceScore defaultConfig (defaultConfig.ideal_pace_wpm - 30) =
      paceScore defaultConfig (defaultConfig.ideal_pace_wpm + 30) := by
  have h : defaultConfig.pace_low ≤ defaultConfig.ideal_pace_wpm - 30 ∧
      defaultConfig.ideal_pace_wpm + 30 ≤ defaultConfig.pace_high := by
    constructor <;> norm_num [defaultConfig]
  exact ⟨h, paceScore_symmetric defaultConfig 30 h⟩

/-- C1: a history-append failure never changes the handler's response — for
every request and external outcome, the response with the append raising
equals the response with the append succeeding; on the success path the
response is the 200 result `{...result, sentiment}` and the failure is
recorded only as the logged warning of `saveAnalysisToHistory`. -/
theorem post_append_failure_nonfatal (req : Request) (ext : Externals) (now : ℕ)
    (store : List (ℕ × FinalResult)) :
    (post req { ext with appendFails := true } now store).1 =
      (post req { ext with appendFails := false } now store).1 ∧
    (∀ r s, req.hasAudio = true → ext.python = .ok r → r.success = true →
      ext.sentiment = .ok s → ext.unlinkFails = false →
      (post req { ext with appendFails := true } now store).1 =
        ⟨200, .result ⟨r, s⟩⟩ ∧
      (post req { ext with appendFails := true } now store).2.historyWarning = true) := by
  obtain ⟨ha⟩ := req
  obtain ⟨py, sent, af, uf⟩ := ext
  constructor
  · cases ha with
    | false => rfl
    | true =>
      cases py with
      | error m => rfl
      | ok r =>
        obtain ⟨suc, tr, err, an, cmp, ts⟩ := r
        cases suc with
        | false => rfl
        | true =>
          cases sent with
          | error m => rfl
          | ok s => cases uf <;> rfl
  · intro r s hha hpy hsuc hsent huf
    simp only at hha hpy hsent huf
    subst hha hpy hsent huf
    simp [post, saveAnalysisToHistory, hsuc]

/-- Witness for C1: a concrete successful run whose history append raises
still answers 200 with the assembled result, and records the warning. -/
theorem post_append_failure_nonfatal_witness :
    (post ⟨true⟩ { (⟨.ok ⟨true, some "hi", none, none, none, none⟩, .ok "S", true, false⟩ :
        Externals) with appendFails := true } 7 []).1 =
      ⟨200, .result ⟨⟨true, some "hi", none, none, none, none⟩, "S"⟩⟩ ∧
    (post ⟨true⟩ { (⟨.ok ⟨true, some "hi", none, none, none, none⟩, .ok "S", true, false⟩ :
        Externals) with appendFails := true } 7 []).2.historyWarning = true :=
  (post_append_failure_nonfatal ⟨true⟩
      ⟨.ok ⟨true, some "hi", none, none, none, none⟩, .ok "S", true, false⟩ 7 []).2
    ⟨true, some "hi", none, none, none, none⟩ "S" rfl rfl rfl rfl rfl

/-- C2 (amended): on every successful run the handler returns exactly the
spread of the parsed transcription result together with the sentiment text —
the 200 response whose body is `FinalResult` (the route's declared
`TranscriptionResult` interface plus `sentiment`). -/
theorem post_success_result_shape (req : Request) (ext : Externals) (now : ℕ)
    (store : List (ℕ × FinalResult)) (r : TranscriptionResult) (s : String)
    (h1 : req.hasAudio = true) (h2 : ext.python = .ok r) (h3 : r.success = true)
    (h4 : ext.sentiment = .ok s) (h5 : ext.unlinkFails = false) :
    (post req ext now store).1 = ⟨200, .result ⟨r, s⟩⟩ := by
  obtain ⟨ha⟩ := req
  obtain ⟨py, sent, af, uf⟩ := ext
  simp only at h1 h2 h4 h5
  subst h1 h2 h4 h5
  simp [post, h3]

/-- Witness for C2 (amended): a concrete successful run returns the 200
response carrying the spread result. -/
theorem post_success_result_shape_witness :
    (post ⟨true⟩ ⟨.ok ⟨true, some "hello", none, none, none, some "t"⟩, .ok "S",
        false, false⟩ 3 []).1 =
      ⟨200, .result ⟨⟨true, some "hello", none, none, none, some "t"⟩, "S"⟩⟩ :=
  post_success_result_shape ⟨true⟩
    ⟨.ok ⟨true, some "hello", none, none, none, some "t"⟩, .ok "S", false, false⟩ 3 []
    ⟨true, some "hello", none, none, none, some "t"⟩ "S" rfl rfl rfl rfl rfl

/-- Counterexample for C2 as stated: the spec-claimed output shape requires a
`speaker_analysis` member and per-speaker `speaker_scores` inside
`comparison`, but the route's declared final-result fields contain no
`speaker_analysis`, and its declared comparison fields contain no
`speaker_scores`. -/
theorem result_shape_counterexample :
    ("speaker_analysis" ∈ specResultTopFields ∧
      "speaker_analysis" ∉ finalResultFields) ∧
    ("speaker_scores" ∈ specComparisonFields ∧
      "speaker_scores" ∉ comparisonResultFields) := by
  decide

/-- C3 (code bug): the UI displays the very same score field on two
incompatible scales — `Math.round(score * 100)` with a percent sign in the
"Performance Scores" panel, but the raw value before a literal `/10` in the
per-speaker "Performance" panel.  At score 0.5 the first path shows 50(%)
while the second shows 0.5/10 instead of the 5/10 that a consistent 0-10
surface (the 0-1 value times 10) would require. -/
theorem display_scale_mismatch :
    displayScorePercent (1/2) = 50 ∧
    displayScoreOutOfTen (1/2) ≠ 10 * (1/2 : ℚ) := by
  constructor
  · unfold displayScorePercent
    norm_num
  · unfold displayScoreOutOfTen
    norm_num

/-- C4: with a fresh filename (the `Date.now()` stamp differing from every
stored record's), the history store is append-only — a successful save
appends exactly one new record, a failed save leaves the store unchanged, and
every previously persisted record survives unchanged through
`saveAnalysisToHistory` and through the whole `POST` handler. -/
theorem history_append_only (req : Request) (ext : Externals) (now : ℕ)
    (store : List (ℕ × FinalResult)) (r : FinalResult)
    (h : ∀ e ∈ store, e.1 ≠ now) :
    (∀ fails, ∀ e ∈ store, e ∈ (saveAnalysisToHistory store now r fails).1) ∧
    (saveAnalysisToHistory store now r false).1 = store ++ [(now, r)] ∧
    (saveAnalysisToHistory store now r true).1 = store ∧
    (∀ e ∈ store, e ∈ (post req ext now store).2.history) := by
  have hany : store.any (fun e => e.1 = now) = false := by
    rw [List.any_eq_false]
    intro e he
    simpa using h e he
  have hwrite : ∀ x : FinalResult, writeHistoryFile store now x = store ++ [(now, x)] := by
    intro x
    simp [writeHistoryFile, hany]
  refine ⟨?_, ?_, ?_, ?_⟩
  · intro fails e he
    cases fails with
    | false =>
      simp only [saveAnalysisToHistory, if_neg (by simp : ¬False), Bool.false_eq_true,
        ite_false, hwrite]
      exact List.mem_append_left _ he
    | true => simpa [saveAnalysisToHistory] using he
  · simp [saveAnalysisToHistory, hwrite]
  · simp [saveAnalysisToHistory]
  · obtain ⟨ha⟩ := req
    obtain ⟨py, sent, af, uf⟩ := ext
    intro e he
    cases ha with
    | false => simpa [post] using he
    | true =>
      cases py with
      | error m => simpa [post] using he
      | ok rr =>
        obtain ⟨suc, tr, err, an, cmp, ts⟩ := rr
        cases suc with
        | false => simpa [post] using he
        | true =>
          cases sent with
          | error m => simpa [post] using he
          | ok s =>
            cases af with
            | true => cases uf <;> simpa [post, saveAnalysisToHistory] using he
            | false =>
              cases uf <;>
                · simp only [post, saveAnalysisToHistory, hwrite]
                  simp only [Bool.false_eq_true, ite_false, ite_true]
                  exact List.mem_append_left _ he

/-- Witness for C4: with one stored record stamped 1 and a new save stamped 2,
the save appends the new record, and the old record survives a full
successful `POST` run. -/
theorem history_append_only_witness :
    (saveAnalysisToHistory [(1, ⟨⟨true, none, none, none, none, none⟩, "a"⟩)] 2
        ⟨⟨true, none, none, none, none, none⟩, "b"⟩ false).1 =
      [(1, ⟨⟨true, none, none, none, none, none⟩, "a"⟩)] ++
        [(2, ⟨⟨true, none, none, none, none, none⟩, "b"⟩)] ∧
    ((1 : ℕ), (⟨⟨true, none, none, none, none, none⟩, "a"⟩ : FinalResult)) ∈
      (post ⟨true⟩ ⟨.ok ⟨true, none, none, none, none, none⟩, .ok "S", false, false⟩ 2
        [(1, ⟨⟨true, none, none, none, none, none⟩, "a"⟩)]).2.history := by
  have h : ∀ e ∈ [((1 : ℕ), (⟨⟨true, none, none, none, none, none⟩, "a"⟩ : FinalResult))],
      e.1 ≠ 2 := by decide
  refine ⟨?_, ?_⟩
  · exact (history_append_only ⟨true⟩
      ⟨.ok ⟨true, none, none, none, none, none⟩, .ok "S", false, false⟩ 2 _
      ⟨⟨true, none, none, none, none, none⟩, "b"⟩ h).2.1
  · exact (history_append_only ⟨true⟩
      ⟨.ok ⟨true, none, none, none, none, none⟩, .ok "S", false, false⟩ 2 _
      ⟨⟨true, none, none, none, none, none⟩, "b"⟩ h).2.2.2 _ (by decide)

/-- C5 (amended): every error reaching the catch block is surfaced as a
structured HTTP 500 failure carrying the error's message (never a silent
success default) — shown here for a rejecting transcription step, whose
message passes through unchanged regardless of the other externals. -/
theorem fatal_error_surfaced (req : Request) (ext : Externals) (now : ℕ)
    (store : List (ℕ × FinalResult)) (msg : String)
    (h1 : req.hasAudio = true) (h2 : ext.python = .error msg) :
    (post req ext now store).1 = catchResponse ⟨"Error", msg⟩ ∧
    (post req ext now store).1.status = 500 := by
  obtain ⟨ha⟩ := req
  obtain ⟨py, sent, af, uf⟩ := ext
  simp only at h1 h2
  subst h1 h2
  exact ⟨rfl, rfl⟩

/-- Witness for C5 (amended): a concrete failing transcription yields a 500
response carrying that failure's message. -/
theorem fatal_error_surfaced_witness :
    (post ⟨true⟩ ⟨.error "Python process exited with code 1", .ok "S", false, false⟩ 0
        []).1 = catchResponse ⟨"Error", "Python process exited with code 1"⟩ ∧
    (post ⟨true⟩ ⟨.error "Python process exited with code 1", .ok "S", false, false⟩ 0
        []).1.status = 500 :=
  fatal_error_surfaced ⟨true⟩
    ⟨.error "Python process exited with code 1", .ok "S", false, false⟩ 0 []
    "Python process exited with code 1" rfl rfl

/-- Counterexample for C5 as stated: the catch block keeps only the message,
so two fatal errors of different kinds (different `error.name`) with the same
message produce identical responses — the returned failure does not
distinguish which kind occurred. -/
theorem error_kind_not_distinguished :
    catchResponse ⟨"InvalidSegmentError", "invalid input"⟩ =
      catchResponse ⟨"InvalidConfigError", "invalid input"⟩ ∧
    ("InvalidSegmentError" : String) ≠ "InvalidConfigError" := by
  exact ⟨rfl, by decide⟩

/-- C6 (amended): with the sentiment text also held fixed, the handler is
deterministic up to the timestamp field — the response is independent of the
timestamp carried by the transcription result and of the wall-clock stamp,
once the timestamp field is stripped before comparison. -/
theorem post_deterministic_modulo_timestamp (req : Request) (ext : Externals)
    (store : List (ℕ × FinalResult)) (t1 t2 : Option String) (now1 now2 : ℕ) :
    stripResponse (post req (withTimestamp ext t1) now1 store).1 =
      stripResponse (post req (withTimestamp ext t2) now2 store).1 := by
  obtain ⟨ha⟩ := req
  obtain ⟨py, sent, af, uf⟩ := ext
  cases py with
  | error m => cases ha <;> rfl
  | ok r =>
    obtain ⟨suc, tr, err, an, cmp, ts⟩ := r
    cases ha with
    | false => rfl
    | true =>
      cases suc with
      | false => rfl
      | true =>
        cases sent with
        | error m => rfl
        | ok s => cases uf <;> cases af <;> rfl

/-- Counterexample for C6 as stated: two runs with identical request,
identical transcription result and identical (empty) history, but different
texts returned by the external sentiment call, produce responses that differ
even after the timestamp field is stripped — the sentiment text is a second
run-to-run difference beyond the timestamp. -/
theorem determinism_counterexample :
    stripResponse (post ⟨true⟩
        ⟨.ok ⟨true, some "hi", none, none, none, some "t"⟩, .ok "Good", false, false⟩
        0 []).1 ≠
      stripResponse (post ⟨true⟩
        ⟨.ok ⟨true, some "hi", none, none, none, some "t"⟩, .ok "Bad", false, false⟩
        0 []).1 := by
  decide

/-- C9: whenever `unlink` itself succeeds, a request that wrote the temporary
audio file has deleted it by the time the handler returns, on the success
path and on every error path; and on an error path a failing cleanup is
swallowed — it does not change the response. -/
theorem post_temp_cleanup (req : Request) (ext : Externals) (now : ℕ)
    (store : List (ℕ × FinalResult)) :
    (ext.unlinkFails = false →
      (post req ext now store).2.tempWritten = true →
      (post req ext now store).2.tempExists = false) ∧
    (∀ msg, ext.python = .error msg →
      (post req { ext with unlinkFails := true } now store).1 =
        (post req { ext with unlinkFails := false } now store).1) := by
  obtain ⟨ha⟩ := req
  obtain ⟨py, sent, af, uf⟩ := ext
  constructor
  · intro huf _
    simp only at huf
    subst huf
    cases ha with
    | false => rfl
    | true =>
      cases py with
      | error m => rfl
      | ok r =>
        obtain ⟨suc, tr, err, an, cmp, ts⟩ := r
        cases suc with
        | false => rfl
        | true =>
          cases sent with
          | error m => rfl
          | ok s => cases af <;> rfl
  · intro msg hpy
    simp only at hpy
    subst hpy
    cases ha <;> rfl

/-- Witness for C9: in a concrete run whose transcription step fails, the
temporary file is gone on return, and a failing cleanup on that error path
leaves the 500 response unchanged. -/
theorem post_temp_cleanup_witness :
    (post ⟨true⟩ ⟨.error "boom", .ok "S", false, false⟩ 3 []).2.tempExists = false ∧
    (post ⟨true⟩ { (⟨.error "boom", .ok "S", false, false⟩ : Externals) with
        unlinkFails := true } 3 []).1 =
      (post ⟨true⟩ { (⟨.error "boom", .ok "S", false, false⟩ : Externals) with
        unlinkFails := false } 3 []).1 :=
  ⟨(post_temp_cleanup ⟨true⟩ ⟨.error "boom", .ok "S", false, false⟩ 3 []).1 rfl rfl,
   (post_temp_cleanup ⟨true⟩ ⟨.error "boom", .ok "S", false, false⟩ 3 []).2 "boom" rfl⟩

/-- C10: a request without an `audio` form field is answered 400 with the
message "No audio file provided", and has no side effect — no temporary file,
no spawned process, no history change, no warning. -/
theorem post_no_audio (ext : Externals) (now : ℕ) (store : List (ℕ × FinalResult)) :
    post ⟨false⟩ ext now store =
      (⟨400, .error "No audio file provided"⟩, ⟨false, false, false, store, false⟩) :=
  rfl

end WhisperAI
